import Mathlib

/-!
Shallow embedding of `src/resources/loader/map.js` (the DataMap class of the
DataMaps MediaWiki extension): the coordinate reference system transform,
background selection, and marker ingestion.  Numbers are modelled by `ℚ`
(the JavaScript arithmetic involved is exact on the inputs of interest);
JavaScript objects are modelled by association lists, and absent values by
`Option`.  Exceptions thrown during ingestion are modelled by a `Bool` flag
returned next to the final (partially mutated) state, reflecting that a throw
inside a `forEach` leaves prior mutations of `this` in place.
-/

namespace DataMaps

/-- Point in either native or render space, `[lat, lon]` as in the source. -/
abbrev Point : Type := ℚ × ℚ

/-- Mirrors the `CRSOrigin` enumeration of map.js (`TopLeft: 1, BottomLeft: 2`). -/
inductive CRSOrigin : Type where
  | TopLeft : CRSOrigin
  | BottomLeft : CRSOrigin
deriving DecidableEq, Repr

/-- Optional data slots of a marker instance (`instance[2]` in map.js):
label, description, image, article override, explicit stable identifier. -/
structure Slots : Type where
  uid : Option String
  label : Option String
  desc : Option String
  image : Option String
  article : Option String
deriving DecidableEq, Repr

/-- One marker placement from the API payload: `[ lat, lon, slots? ]`. -/
structure Inst : Type where
  lat : ℚ
  lon : ℚ
  slots : Option Slots
deriving DecidableEq, Repr

/-- A marker group definition from `this.config.groups` (the fields map.js
reads in `instantiateMarkers`). -/
structure Group : Type where
  markerIcon : Option String
  canDismiss : Bool
  size : ℚ
  extraMinZoomSize : Option ℚ
  fillColor : String
  strokeColor : Option String
  strokeWidth : Option ℚ
deriving DecidableEq, Repr

/-- A background definition from `this.config.backgrounds`.  `atBox` models the
optional `at` bounds field (`at` is reserved in Lean); the Leaflet layer
objects built for it are presentation glue and are not modelled. -/
structure Background : Type where
  name : String
  image : String
  atBox : Option (Point × Point)
deriving DecidableEq, Repr

/-- A rendered marker as constructed in `instantiateMarkers`: either an
`L.Ark.IconMarker` (when the group has `markerIcon`) or an
`L.Ark.CircleMarker`, with the option fields map.js passes. -/
inductive LeafletMarker : Type where
  | iconMarker : (position : Point) → (iconGroup : String) → (dismissed : Bool) → LeafletMarker
  | circleMarker : (position : Point) → (baseRadius : ℚ) → (expandZoomInvEx : Option ℚ) →
      (fillColor : String) → (color : String) → (weight : ℚ) → LeafletMarker
deriving DecidableEq, Repr

/-- The state of a `DataMap` object: the configuration fields the core reads
(`config.crs`, `config.backgrrounds` is spelled `backgrounds`, `config.groups`),
the coordinate reference system fields computed in the constructor, the
mutable background selection, the layer manager state (registered layer names
and the `(layer-combination key, marker)` members added via `addMember`), the
per-map stored background choice, the `marker` URL parameter captured at
construction, and the keys of markers whose popup was auto-opened. -/
structure DataMap : Type where
  crs0 : Point
  crs1 : Point
  backgrounds : List Background
  groups : List (String × Group)
  crsOrigin : CRSOrigin
  crsScaleY : ℚ
  crsScaleX : ℚ
  background : Option Background
  backgroundIndex : Nat
  storedBackground : Option Int
  layers : List String
  members : List (String × LeafletMarker)
  markerIdToAutoOpen : Option String
  openedPopups : List String
deriving DecidableEq, Repr

/-- The `DataMap` constructor (map.js lines 16–71), restricted to the fields
modelled here.  The coordinate reference system is oriented by
`crs[0][0] < crs[1][0] && crs[0][1] < crs[1][1]` (top-left origin) and falls
through to bottom-left otherwise; the scale factors are
`100 / max(crs[0][0], crs[1][0])` (Y, from the first components) and
`100 / max(crs[0][1], crs[1][1])` (X, from the second components). -/
def DataMap.init (crs0 crs1 : Point) (backgrounds : List Background)
    (groups : List (String × Group)) (markerIdToAutoOpen : Option String) : DataMap :=
  { crs0 := crs0
    crs1 := crs1
    backgrounds := backgrounds
    groups := groups
    crsOrigin := if crs0.1 < crs1.1 ∧ crs0.2 < crs1.2
      then CRSOrigin.TopLeft else CRSOrigin.BottomLeft
    crsScaleY := 100 / max crs0.1 crs1.1
    crsScaleX := 100 / max crs0.2 crs1.2
    background := none
    backgroundIndex := 0
    storedBackground := none
    layers := []
    members := []
    markerIdToAutoOpen := markerIdToAutoOpen
    openedPopups := [] }

/-- `DataMap.prototype.translatePoint` (map.js lines 98–102). -/
def DataMap.translatePoint (m : DataMap) (point : Point) : Point :=
  if m.crsOrigin = CRSOrigin.TopLeft
  then ((m.crs1.1 - point.1) * m.crsScaleY, point.2 * m.crsScaleX)
  else (point.1 * m.crsScaleY, point.2 * m.crsScaleX)

/-- `DataMap.prototype.translateBox` (map.js lines 105–111), verbatim: note
that the bottom-left branch computes the second corner as
`[ box[1][0] * crsScaleY, box[1][0] * crsScaleX ]`, reading `box[1][0]` for
both components. -/
def DataMap.translateBox (m : DataMap) (box : Point × Point) : Point × Point :=
  if m.crsOrigin = CRSOrigin.TopLeft
  then (((m.crs1.1 - box.1.1) * m.crsScaleY, box.1.2 * m.crsScaleX),
        ((m.crs1.1 - box.2.1) * m.crsScaleY, box.2.2 * m.crsScaleX))
  else ((box.1.1 * m.crsScaleY, box.1.2 * m.crsScaleX),
        (box.2.1 * m.crsScaleY, box.2.1 * m.crsScaleX))

/-- The render-to-native conversion performed by the coordinate-under-cursor
display (map.js lines 379–389): each component is divided by its scale factor
and, for a top-left origin, the latitude is subtracted from `crs[1][0]`.
The handler only updates the display when the render point lies in
`[-5, 105]` on both axes; the arithmetic itself is modelled here. -/
def DataMap.renderToNative (m : DataMap) (point : Point) : Point :=
  let lat := point.1 / m.crsScaleY
  let lon := point.2 / m.crsScaleX
  (if m.crsOrigin = CRSOrigin.TopLeft then m.crs1.1 - lat else lat, lon)

/-- Membership of a native point in the configured coordinate space
(between the two corners on each axis, whatever their orientation). -/
def DataMap.inBounds (m : DataMap) (point : Point) : Prop :=
  min m.crs0.1 m.crs1.1 ≤ point.1 ∧ point.1 ≤ max m.crs0.1 m.crs1.1 ∧
  min m.crs0.2 m.crs1.2 ≤ point.2 ∧ point.2 ≤ max m.crs0.2 m.crs1.2

instance (m : DataMap) (p : Point) : Decidable (m.inBounds p) := by
  unfold DataMap.inBounds; infer_instance

/-- Orientation detection as the specification words it: top-left when both
components of the first corner are strictly below the second corner's,
bottom-left when both are strictly above, and failure
(`InvalidCoordinateSpace`, modelled by `none`) for every other ordering. -/
def crsOriginSpec (crs0 crs1 : Point) : Option CRSOrigin :=
  if crs0.1 < crs1.1 ∧ crs0.2 < crs1.2 then some CRSOrigin.TopLeft
  else if crs1.1 < crs0.1 ∧ crs1.2 < crs0.2 then some CRSOrigin.BottomLeft
  else none

/-- `DataMap.prototype.setCurrentBackground` (map.js lines 225–246): removes
the current background, clamps an out-of-range index to 0, then installs
`config.backgrounds[index]` and records the index.  The Leaflet layer
add/remove calls are rendering effects with no modelled state.  Note that
this function does not write to storage. -/
def DataMap.setCurrentBackground (m : DataMap) (index : Int) : DataMap :=
  let m1 : DataMap := { m with background := none }
  let clamped : Int :=
    if index < 0 ∨ (m.backgrounds.length : Int) ≤ index then 0 else index
  { m1 with
    background := m.backgrounds.get? clamped.toNat
    backgroundIndex := clamped.toNat }

/-- The background-switch control handler (map.js lines 393–406): calls
`setCurrentBackground` with the selected value, then persists that value
under the `background` storage key. -/
def DataMap.onBackgroundSwitchChange (m : DataMap) (value : Int) : DataMap :=
  let m1 := m.setCurrentBackground value
  { m1 with storedBackground := some value }

/-- Lookup of `this.config.groups[groupName]` on the association-list model
of the configuration object. -/
def lookupGroup (groups : List (String × Group)) (name : String) : Option Group :=
  (groups.find? (fun kv => kv.1 == name)).map (fun kv => kv.2)

/-- Character-level worker for `String.prototype.split( ' ' )`. -/
def splitSpacesAux : List Char → List Char → List String
  | [], acc => [String.mk acc.reverse]
  | c :: cs, acc =>
    if c = ' ' then String.mk acc.reverse :: splitSpacesAux cs []
    else splitSpacesAux cs (c :: acc)

/-- JavaScript `markerType.split( ' ' )`: splits at every single space,
keeping empty fragments, and yields `[ markerType ]` when no space occurs. -/
def splitSpaces (s : String) : List String :=
  splitSpacesAux s.data []

/-- The group name of a layer-combination key: `markerType.split( ' ' )[0]`. -/
def groupNameOf (markerType : String) : String :=
  (splitSpaces markerType).headD ""

/-- The stable key used for deep-link matching (map.js line 128 and 183):
`( instance[2] && instance[2].uid != null ) ? instance[2].uid
: this.storage.getMarkerKey( type, instance )`.  The storage collaborator's
`getMarkerKey` is passed in as a function. -/
def markerStableKey (getKey : String → Inst → String) (markerType : String)
    (inst : Inst) : String :=
  match inst.slots with
  | some s =>
    match s.uid with
    | some u => u
    | none => getKey markerType inst
  | none => getKey markerType inst

/-- The condition under which `DataMap.prototype.onMarkerReady`
(map.js lines 125–132) calls `marker.openPopup()`: a `marker` query parameter
was captured at construction and equals the instance's stable key. -/
def DataMap.shouldAutoOpen (m : DataMap) (getKey : String → Inst → String)
    (markerType : String) (inst : Inst) : Bool :=
  match m.markerIdToAutoOpen with
  | none => false
  | some param => markerStableKey getKey markerType inst == param

/-- `MarkerLayerManager.register` as used by `instantiateMarkers`.  Modelled
from the spec: the layer manager source is not under src/; §4.2 specifies
`register(layerId)` as idempotent, creating an empty membership set if
unseen. -/
def DataMap.registerLayer (m : DataMap) (name : String) : DataMap :=
  if name ∈ m.layers then m else { m with layers := m.layers ++ [name] }

/-- The first loop of `instantiateMarkers` (map.js lines 140–142): registers
every space-delimited layer name of every marker type in the payload. -/
def DataMap.registerTypes (m : DataMap) (data : List (String × List Inst)) : DataMap :=
  data.foldl (fun acc kv => (splitSpaces kv.1).foldl DataMap.registerLayer acc) m

/-- The body of the `placements.forEach` callback in `instantiateMarkers`
(map.js lines 152–191) for a known group: translate the position, construct
the icon or circle marker, add it to the layer manager
(`MarkerLayerManager.addMember`, modelled from the spec as recording the
(layer-combination key, marker) pair — the manager source is not under src/),
and run `onMarkerReady`, which may open the popup. -/
def DataMap.addMarker (m : DataMap) (getKey : String → Inst → String)
    (isDismissed : String → Inst → Bool) (markerType groupName : String)
    (group : Group) (inst : Inst) : DataMap :=
  let position := m.translatePoint (inst.lat, inst.lon)
  let leafletMarker : LeafletMarker :=
    match group.markerIcon with
    | some _ =>
      LeafletMarker.iconMarker position groupName
        (if group.canDismiss then isDismissed markerType inst else false)
    | none =>
      LeafletMarker.circleMarker position (group.size / 2) group.extraMinZoomSize
        group.fillColor (group.strokeColor.getD group.fillColor)
        (group.strokeWidth.getD 1)
  let m1 : DataMap := { m with members := m.members ++ [(markerType, leafletMarker)] }
  if m1.shouldAutoOpen getKey markerType inst
  then { m1 with openedPopups := m1.openedPopups ++ [markerStableKey getKey markerType inst] }
  else m1

/-- The second loop of `instantiateMarkers` (map.js lines 145–192).  For each
marker type, `config.groups[groupName]` is read once; when the group is
unknown it is `undefined`, and the first placement's access to
`group.markerIcon` throws a `TypeError`, aborting the whole loop while the
mutations made so far remain.  The `Bool` result records whether a throw
happened (an unknown group with an empty placement list never reaches the
throwing access). -/
def DataMap.processEntries (getKey : String → Inst → String)
    (isDismissed : String → Inst → Bool) :
    DataMap → List (String × List Inst) → DataMap × Bool
  | m, [] => (m, false)
  | m, (markerType, placements) :: rest =>
    let groupName := groupNameOf markerType
    match lookupGroup m.groups groupName with
    | some group =>
      DataMap.processEntries getKey isDismissed
        (placements.foldl
          (fun acc inst => acc.addMarker getKey isDismissed markerType groupName group inst) m)
        rest
    | none =>
      match placements with
      | [] => DataMap.processEntries getKey isDismissed m rest
      | _ :: _ => (m, true)

/-- `DataMap.prototype.instantiateMarkers` (map.js lines 138–193): register
all layers of the payload, then unpack the markers; the `Bool` records
whether a `TypeError` escaped. -/
def DataMap.instantiateMarkers (m : DataMap) (getKey : String → Inst → String)
    (isDismissed : String → Inst → Bool) (data : List (String × List Inst)) :
    DataMap × Bool :=
  DataMap.processEntries getKey isDismissed (m.registerTypes data) data

/-- Outcome of the asynchronous fetch performed by `streamMarkersIn`: either
the promise rejects, or it resolves with a response whose `error` field may
be set and whose `query.markers` carries the payload. -/
inductive FetchResult : Type where
  | failure : FetchResult
  | response : (hasError : Bool) → (markers : List (String × List Inst)) → FetchResult
deriving DecidableEq, Repr

/-- Result of `streamMarkersIn`: the map state afterwards, whether
`instantiateMarkers` threw, and which of the two callbacks was invoked. -/
structure StreamResult : Type where
  map : DataMap
  threw : Bool
  errorCbInvoked : Bool
  successCbInvoked : Bool
deriving DecidableEq, Repr

/-- `DataMap.prototype.streamMarkersIn` (map.js lines 196–219): on promise
rejection the error callback runs; on a response with `data.error` set the
error callback runs; otherwise `instantiateMarkers` runs (after Leaflet is
ready) followed by the success callback — which is skipped if
`instantiateMarkers` throws. -/
def DataMap.streamMarkersIn (m : DataMap) (getKey : String → Inst → String)
    (isDismissed : String → Inst → Bool) (result : FetchResult) : StreamResult :=
  match result with
  | FetchResult.failure =>
    { map := m, threw := false, errorCbInvoked := true, successCbInvoked := false }
  | FetchResult.response true _ =>
    { map := m, threw := false, errorCbInvoked := true, successCbInvoked := false }
  | FetchResult.response false markers =>
    let r := m.instantiateMarkers getKey isDismissed markers
    { map := r.1, threw := r.2, errorCbInvoked := false, successCbInvoked := !r.2 }

/-- Total number of marker placements in a payload. -/
def payloadSize (data : List (String × List Inst)) : Nat :=
  (data.map (fun kv => kv.2.length)).sum

/-- Agreement of all configuration-derived fields of two map states: the
corner points, backgrounds, groups, and the three coordinate reference
system fields computed in the constructor. -/
def configEq (a b : DataMap) : Prop :=
  b.crs0 = a.crs0 ∧ b.crs1 = a.crs1 ∧ b.backgrounds = a.backgrounds ∧ b.groups = a.groups ∧
  b.crsOrigin = a.crsOrigin ∧ b.crsScaleY = a.crsScaleY ∧ b.crsScaleX = a.crsScaleX

/-- Agreement of the three coordinate reference system fields alone. -/
def crsEq (a b : DataMap) : Prop :=
  b.crsOrigin = a.crsOrigin ∧ b.crsScaleX = a.crsScaleX ∧ b.crsScaleY = a.crsScaleY

lemma configEq_refl (a : DataMap) : configEq a a :=
  ⟨rfl, rfl, rfl, rfl, rfl, rfl, rfl⟩

lemma configEq_trans {a b c : DataMap} (h1 : configEq a b) (h2 : configEq b c) :
    configEq a c :=
  ⟨h2.1.trans h1.1, h2.2.1.trans h1.2.1, h2.2.2.1.trans h1.2.2.1,
   h2.2.2.2.1.trans h1.2.2.2.1, h2.2.2.2.2.1.trans h1.2.2.2.2.1,
   h2.2.2.2.2.2.1.trans h1.2.2.2.2.2.1, h2.2.2.2.2.2.2.trans h1.2.2.2.2.2.2⟩

lemma crsEq_of_configEq {a b : DataMap} (h : configEq a b) : crsEq a b :=
  ⟨h.2.2.2.2.1, h.2.2.2.2.2.2, h.2.2.2.2.2.1⟩

lemma registerLayer_configEq (m : DataMap) (name : String) :
    configEq m (m.registerLayer name) := by
  unfold DataMap.registerLayer
  split
  · exact configEq_refl m
  · exact ⟨rfl, rfl, rfl, rfl, rfl, rfl, rfl⟩

lemma foldl_configEq {α : Type} (f : DataMap → α → DataMap)
    (hf : ∀ m a, configEq m (f m a)) :
    ∀ (l : List α) (m : DataMap), configEq m (l.foldl f m)
  | [], m => configEq_refl m
  | a :: l, m => configEq_trans (hf m a) (foldl_configEq f hf l (f m a))

lemma registerTypes_configEq (m : DataMap) (data : List (String × List Inst)) :
    configEq m (m.registerTypes data) := by
  unfold DataMap.registerTypes
  exact foldl_configEq _
    (fun m kv => foldl_configEq DataMap.registerLayer registerLayer_configEq (splitSpaces kv.1) m)
    data m

lemma addMarker_configEq (m : DataMap) (getKey : String → Inst → String)
    (isDismissed : String → Inst → Bool) (markerType groupName : String)
    (group : Group) (inst : Inst) :
    configEq m (m.addMarker getKey isDismissed markerType groupName group inst) := by
  unfold DataMap.addMarker
  dsimp only
  repeat' split
  all_goals exact ⟨rfl, rfl, rfl, rfl, rfl, rfl, rfl⟩

lemma processEntries_configEq (getKey : String → Inst → String)
    (isDismissed : String → Inst → Bool) :
    ∀ (data : List (String × List Inst)) (m : DataMap),
      configEq m (DataMap.processEntries getKey isDismissed m data).1 := by
  intro data
  induction data with
  | nil => intro m; exact configEq_refl m
  | cons hd tl ih =>
    intro m
    obtain ⟨markerType, placements⟩ := hd
    simp only [DataMap.processEntries]
    split
    · exact configEq_trans
        (foldl_configEq _
          (fun m inst => addMarker_configEq m getKey isDismissed markerType
            (groupNameOf markerType) _ inst) placements m)
        (ih _)
    · split
      · exact ih m
      · exact configEq_refl m

lemma instantiateMarkers_configEq (m : DataMap) (getKey : String → Inst → String)
    (isDismissed : String → Inst → Bool) (data : List (String × List Inst)) :
    configEq m (m.instantiateMarkers getKey isDismissed data).1 :=
  configEq_trans (registerTypes_configEq m data)
    (processEntries_configEq getKey isDismissed data (m.registerTypes data))

lemma setCurrentBackground_configEq (m : DataMap) (index : Int) :
    configEq m (m.setCurrentBackground index) := by
  unfold DataMap.setCurrentBackground
  exact ⟨rfl, rfl, rfl, rfl, rfl, rfl, rfl⟩

lemma onBackgroundSwitchChange_configEq (m : DataMap) (value : Int) :
    configEq m (m.onBackgroundSwitchChange value) := by
  unfold DataMap.onBackgroundSwitchChange
  exact configEq_trans (setCurrentBackground_configEq m value)
    ⟨rfl, rfl, rfl, rfl, rfl, rfl, rfl⟩

lemma streamMarkersIn_configEq (m : DataMap) (getKey : String → Inst → String)
    (isDismissed : String → Inst → Bool) (result : FetchResult) :
    configEq m (m.streamMarkersIn getKey isDismissed result).map := by
  cases result with
  | failure => exact configEq_refl m
  | response hasError markers =>
    cases hasError with
    | true => exact configEq_refl m
    | false => exact instantiateMarkers_configEq m getKey isDismissed markers

lemma processEntries_append (getKey : String → Inst → String)
    (isDismissed : String → Inst → Bool) :
    ∀ (good rest : List (String × List Inst)) (m : DataMap),
      (∀ kv ∈ good, (lookupGroup m.groups (groupNameOf kv.1)).isSome = true) →
      DataMap.processEntries getKey isDismissed m (good ++ rest)
        = DataMap.processEntries getKey isDismissed
            (DataMap.processEntries getKey isDismissed m good).1 rest
      ∧ (DataMap.processEntries getKey isDismissed m good).2 = false := by
  intro good
  induction good with
  | nil => intro rest m h; exact ⟨rfl, rfl⟩
  | cons hd tl ih =>
    intro rest m h
    obtain ⟨markerType, placements⟩ := hd
    have hhd : (lookupGroup m.groups (groupNameOf markerType)).isSome = true :=
      h (markerType, placements) (List.mem_cons_self _ _)
    obtain ⟨g, hg⟩ := Option.isSome_iff_exists.mp hhd
    simp only [List.cons_append, DataMap.processEntries, hg]
    apply ih
    intro kv hkv
    have hgroups :
        (placements.foldl
          (fun acc inst => acc.addMarker getKey isDismissed markerType
            (groupNameOf markerType) g inst) m).groups = m.groups :=
      (foldl_configEq _
        (fun m inst => addMarker_configEq m getKey isDismissed markerType
          (groupNameOf markerType) g inst) placements m).2.2.2.1
    rw [hgroups]
    exact h kv (List.mem_cons_of_mem _ hkv)

/-- Example marker group with circular styling, for concrete runs. -/
def exGroup : Group :=
  { markerIcon := none, canDismiss := false, size := 10, extraMinZoomSize := none,
    fillColor := "fff", strokeColor := none, strokeWidth := none }

/-- Example marker placements for concrete runs. -/
def exInst1 : Inst := { lat := 1, lon := 2, slots := none }

def exInst2 : Inst := { lat := 3, lon := 4, slots := none }

/-- Example storage key derivation for concrete runs. -/
def exGetKey : String → Inst → String := fun markerType _ => markerType

def exIsDismissed : String → Inst → Bool := fun _ _ => false

def exBg0 : Background := { name := "b0", image := "img0", atBox := none }

def exBg1 : Background := { name := "b1", image := "img1", atBox := none }

/-- Example map whose configuration declares only the group `a`
(coordinate space `[[100,100],[0,0]]`, bottom-left origin, scale 1). -/
def exMap5 : DataMap := DataMap.init (100, 100) (0, 0) [] [("a", exGroup)] none

/-- Example map with two configured backgrounds. -/
def exMap6 : DataMap := DataMap.init (100, 100) (0, 0) [exBg0, exBg1] [] none

/-- Example payload whose first bucket uses the declared group `a` and whose
second bucket references the undeclared group `b`. -/
def exPayload : List (String × List Inst) := [("a", [exInst1]), ("b", [exInst2])]

/-- Claim C1 (amended): the origin is top-left if and only if both components
of the first configured corner are strictly less than the second corner's;
in every other case — including mixed orderings — the origin is bottom-left,
and construction never fails. -/
theorem crsOrigin_topLeft_iff (crs0 crs1 : Point) (bgs : List Background)
    (gs : List (String × Group)) (p : Option String) :
    ((DataMap.init crs0 crs1 bgs gs p).crsOrigin = CRSOrigin.TopLeft
      ↔ (crs0.1 < crs1.1 ∧ crs0.2 < crs1.2))
    ∧ ((DataMap.init crs0 crs1 bgs gs p).crsOrigin = CRSOrigin.BottomLeft
      ↔ ¬(crs0.1 < crs1.1 ∧ crs0.2 < crs1.2)) := by
  by_cases hc : crs0.1 < crs1.1 ∧ crs0.2 < crs1.2 <;>
    simp [DataMap.init, hc]

/-- Claim C1 counterexample: on the mixed corner ordering
`[[0,100],[100,0]]` the specification demands an `InvalidCoordinateSpace`
failure (`crsOriginSpec` returns `none`), yet the code constructs a
bottom-left-origin transform. -/
theorem crsOrigin_mixed_ordering_not_rejected :
    crsOriginSpec (0, 100) (100, 0) = none
    ∧ (DataMap.init (0, 100) (100, 0) [] [] none).crsOrigin = CRSOrigin.BottomLeft := by
  constructor
  · norm_num [crsOriginSpec]
  · norm_num [DataMap.init]

/-- Claim C2 (amended): with configured bounds `[[0,0],[100,100]]` the origin
is top-left and `translatePoint` maps native `[25,75]` to render `[75,75]`
(vertical flip, scale 1); with bounds `[[100,100],[0,0]]` the origin is
bottom-left and the same point maps to `[25,75]` (no flip). -/
theorem translatePoint_scenarios :
    (DataMap.init (0, 0) (100, 100) [] [] none).crsOrigin = CRSOrigin.TopLeft
    ∧ (DataMap.init (0, 0) (100, 100) [] [] none).translatePoint (25, 75) = (75, 75)
    ∧ (DataMap.init (100, 100) (0, 0) [] [] none).crsOrigin = CRSOrigin.BottomLeft
    ∧ (DataMap.init (100, 100) (0, 0) [] [] none).translatePoint (25, 75) = (25, 75) := by
  norm_num [DataMap.init, DataMap.translatePoint, Prod.ext_iff]
  decide

/-- Claim C2 counterexample: the claimed scenario is false on the code —
bounds `[[0,0],[100,100]]` do not give a bottom-left origin and `[25,75]`
does not map to `[25,75]`; bounds `[[100,100],[0,0]]` do not give a top-left
origin and `[25,75]` does not map to `[25,25]`. -/
theorem translatePoint_scenarios_refuted :
    (DataMap.init (0, 0) (100, 100) [] [] none).crsOrigin ≠ CRSOrigin.BottomLeft
    ∧ (DataMap.init (0, 0) (100, 100) [] [] none).translatePoint (25, 75) ≠ (25, 75)
    ∧ (DataMap.init (100, 100) (0, 0) [] [] none).crsOrigin ≠ CRSOrigin.TopLeft
    ∧ (DataMap.init (100, 100) (0, 0) [] [] none).translatePoint (25, 75) ≠ (25, 25) := by
  norm_num [DataMap.init, DataMap.translatePoint, Prod.ext_iff]
  decide

/-- Claim C3: in the bottom-left-origin case `translateBox` computes the
second render corner's longitude from `box[1][0]` instead of `box[1][1]`
(map.js line 110), so it disagrees with `translatePoint` applied to the two
corners: on corners `[[100,100],[0,0]]` and box `[[10,20],[30,40]]` it
returns `[[10,20],[30,30]]` while per-corner translation gives
`[[10,20],[30,40]]`. -/
theorem translateBox_drops_second_corner_longitude :
    (DataMap.init (100, 100) (0, 0) [] [] none).translateBox ((10, 20), (30, 40))
      = ((10, 20), (30, 30))
    ∧ (DataMap.init (100, 100) (0, 0) [] [] none).translatePoint (10, 20) = (10, 20)
    ∧ (DataMap.init (100, 100) (0, 0) [] [] none).translatePoint (30, 40) = (30, 40)
    ∧ (DataMap.init (100, 100) (0, 0) [] [] none).translateBox ((10, 20), (30, 40))
        ≠ ((DataMap.init (100, 100) (0, 0) [] [] none).translatePoint (10, 20),
           (DataMap.init (100, 100) (0, 0) [] [] none).translatePoint (30, 40)) := by
  norm_num [DataMap.init, DataMap.translateBox, DataMap.translatePoint, Prod.ext_iff]
  decide

/-- Claim C4: for every native point within the configured bounds, applying
`translatePoint` and then the render-to-native conversion of the
coordinate-under-cursor display yields the point back exactly (the model
uses exact rational arithmetic, so the floating-point tolerance is met with
equality), provided each axis's larger corner value is positive so the scale
factors are nonzero. -/
theorem renderToNative_roundTrip (crs0 crs1 : Point) (bgs : List Background)
    (gs : List (String × Group)) (prm : Option String) (p : Point)
    (hY : 0 < max crs0.1 crs1.1) (hX : 0 < max crs0.2 crs1.2)
    (hP : (DataMap.init crs0 crs1 bgs gs prm).inBounds p) :
    (DataMap.init crs0 crs1 bgs gs prm).renderToNative
      ((DataMap.init crs0 crs1 bgs gs prm).translatePoint p) = p := by
  have hsY : (100 : ℚ) / max crs0.1 crs1.1 ≠ 0 :=
    div_ne_zero (by norm_num) (ne_of_gt hY)
  have hsX : (100 : ℚ) / max crs0.2 crs1.2 ≠ 0 :=
    div_ne_zero (by norm_num) (ne_of_gt hX)
  by_cases hc : crs0.1 < crs1.1 ∧ crs0.2 < crs1.2 <;>
    simp [DataMap.init, DataMap.translatePoint, DataMap.renderToNative, hc,
      Prod.ext_iff, mul_div_cancel_right₀, hsY, hsX]

/-- Witness for claim C4: the hypotheses and conclusion at corners
`[[0,0],[100,100]]` and native point `[25,75]`. -/
theorem renderToNative_roundTrip_witness :
    (0 : ℚ) < max ((0 : ℚ), (0 : ℚ)).1 ((100 : ℚ), (100 : ℚ)).1
    ∧ (0 : ℚ) < max ((0 : ℚ), (0 : ℚ)).2 ((100 : ℚ), (100 : ℚ)).2
    ∧ (DataMap.init (0, 0) (100, 100) [] [] none).inBounds (25, 75)
    ∧ (DataMap.init (0, 0) (100, 100) [] [] none).renderToNative
        ((DataMap.init (0, 0) (100, 100) [] [] none).translatePoint (25, 75)) = (25, 75) :=
  ⟨by norm_num, by norm_num, by norm_num [DataMap.inBounds, DataMap.init],
   renderToNative_roundTrip (0, 0) (100, 100) [] [] none (25, 75)
     (by norm_num) (by norm_num) (by norm_num [DataMap.inBounds, DataMap.init])⟩

/-- Claim C6: an index that is negative or not below the number of configured
backgrounds is replaced by 0 before use — the stored index becomes 0 and the
selected background is the first configured one. -/
theorem setCurrentBackground_clamps (m : DataMap) (index : Int)
    (h : index < 0 ∨ (m.backgrounds.length : Int) ≤ index) :
    (m.setCurrentBackground index).backgroundIndex = 0
    ∧ (m.setCurrentBackground index).background = m.backgrounds.get? 0 := by
  unfold DataMap.setCurrentBackground
  dsimp only
  rw [if_pos h]
  exact ⟨rfl, rfl⟩

/-- Witness for claim C6: requesting background index 7 on a map with exactly
2 configured backgrounds selects index 0. -/
theorem setCurrentBackground_clamps_witness :
    (((7 : Int) < 0 ∨ (exMap6.backgrounds.length : Int) ≤ 7)
    ∧ (exMap6.setCurrentBackground 7).backgroundIndex = 0)
    ∧ exMap6.backgrounds.length = 2 :=
  ⟨⟨by right; decide,
    (setCurrentBackground_clamps exMap6 7 (by right; decide)).1⟩, by decide⟩

/-- Claim C7 counterexample: a direct call to `setCurrentBackground` (as made
when the map is built) selects background index 1 yet leaves the per-map
stored background unchanged (`none`), so not every call persists the chosen
index. -/
theorem setCurrentBackground_does_not_persist :
    (exMap6.setCurrentBackground 1).storedBackground = none
    ∧ (exMap6.setCurrentBackground 1).storedBackground ≠ some 1
    ∧ (exMap6.setCurrentBackground 1).backgroundIndex = 1 := by
  refine ⟨rfl, by decide, ?_⟩
  decide

/-- Claim C7 (amended): `setCurrentBackground` itself never writes to
storage; the persistence of the chosen value happens only in the background
switch control's change handler, which calls `setCurrentBackground` and then
stores the selected value. -/
theorem setCurrentBackground_persistence (m : DataMap) (index value : Int) :
    (m.setCurrentBackground index).storedBackground = m.storedBackground
    ∧ (m.onBackgroundSwitchChange value).storedBackground = some value :=
  ⟨rfl, rfl⟩

/-- Claim C10: whenever at least one background is configured, any call to
`setCurrentBackground` leaves the stored index strictly below the number of
configured backgrounds, the selected background equal to the configured
background at that index, and the configured background list unchanged — so
the consistency is preserved by every subsequent call as well. -/
theorem setCurrentBackground_consistent (m : DataMap) (index : Int)
    (h : 0 < m.backgrounds.length) :
    (m.setCurrentBackground index).backgroundIndex
        < (m.setCurrentBackground index).backgrounds.length
    ∧ (m.setCurrentBackground index).background
        = (m.setCurrentBackground index).backgrounds.get?
            (m.setCurrentBackground index).backgroundIndex
    ∧ (m.setCurrentBackground index).backgrounds = m.backgrounds := by
  unfold DataMap.setCurrentBackground
  dsimp only
  refine ⟨?_, rfl, rfl⟩
  split
  · simpa using h
  · rename_i hcond
    push_neg at hcond
    omega

/-- Witness for claim C10: on a map with two configured backgrounds the index
stored by `setCurrentBackground 5` is within range. -/
theorem setCurrentBackground_consistent_witness :
    0 < exMap6.backgrounds.length
    ∧ (exMap6.setCurrentBackground 5).backgroundIndex
        < (exMap6.setCurrentBackground 5).backgrounds.length :=
  ⟨by decide, (setCurrentBackground_consistent exMap6 5 (by decide)).1⟩

lemma shouldAutoOpen_iff (m : DataMap) (getKey : String → Inst → String)
    (markerType : String) (inst : Inst) :
    m.shouldAutoOpen getKey markerType inst = true
      ↔ m.markerIdToAutoOpen = some (markerStableKey getKey markerType inst) := by
  unfold DataMap.shouldAutoOpen
  cases hcase : m.markerIdToAutoOpen with
  | none => simp only [Bool.false_eq_true, false_iff]; intro hc; cases hc
  | some p =>
    simp only [beq_iff_eq, Option.some.injEq]
    exact eq_comm

/-- Claim C8: `onMarkerReady` opens a marker's popup exactly when the
`marker` URL parameter captured at construction equals the instance's stable
key (the explicit `uid` slot when present, otherwise the storage-derived
key): the auto-open predicate holds iff the parameter is that key, and each
marker created during ingestion records an auto-open exactly under that
condition. -/
theorem onMarkerReady_autoOpen (m : DataMap) (getKey : String → Inst → String)
    (markerType : String) (inst : Inst) :
    (m.shouldAutoOpen getKey markerType inst = true
      ↔ m.markerIdToAutoOpen = some (markerStableKey getKey markerType inst))
    ∧ ∀ (isDismissed : String → Inst → Bool) (groupName : String) (g : Group),
        (m.addMarker getKey isDismissed markerType groupName g inst).openedPopups
          = if m.markerIdToAutoOpen = some (markerStableKey getKey markerType inst)
            then m.openedPopups ++ [markerStableKey getKey markerType inst]
            else m.openedPopups := by
  refine ⟨shouldAutoOpen_iff m getKey markerType inst, ?_⟩
  intro isDismissed groupName g
  cases hcase : m.markerIdToAutoOpen with
  | none =>
    simp [DataMap.addMarker, DataMap.shouldAutoOpen, hcase]
  | some p =>
    by_cases hp : markerStableKey getKey markerType inst = p
    · simp [DataMap.addMarker, DataMap.shouldAutoOpen, hcase, hp]
    · simp [DataMap.addMarker, DataMap.shouldAutoOpen, hcase, hp, Ne.symm hp]

/-- Claim C9: the constructor computes the scale factors as 100 divided by
the per-axis maximum of the two corners (Y from the first components, X from
the second), and none of the map's operations — background selection, the
background switch handler, marker ingestion, or marker streaming — changes
`crsOrigin`, `crsScaleX` or `crsScaleY` afterwards. -/
theorem crs_parameters_invariant (crs0 crs1 : Point) (bgs : List Background)
    (gs : List (String × Group)) (prm : Option String) (m : DataMap)
    (index value : Int) (getKey : String → Inst → String)
    (isDismissed : String → Inst → Bool) (data : List (String × List Inst))
    (result : FetchResult) :
    (DataMap.init crs0 crs1 bgs gs prm).crsScaleY = 100 / max crs0.1 crs1.1
    ∧ (DataMap.init crs0 crs1 bgs gs prm).crsScaleX = 100 / max crs0.2 crs1.2
    ∧ crsEq m (m.setCurrentBackground index)
    ∧ crsEq m (m.onBackgroundSwitchChange value)
    ∧ crsEq m (m.instantiateMarkers getKey isDismissed data).1
    ∧ crsEq m (m.streamMarkersIn getKey isDismissed result).map :=
  ⟨rfl, rfl,
   crsEq_of_configEq (setCurrentBackground_configEq m index),
   crsEq_of_configEq (onBackgroundSwitchChange_configEq m value),
   crsEq_of_configEq (instantiateMarkers_configEq m getKey isDismissed data),
   crsEq_of_configEq (streamMarkersIn_configEq m getKey isDismissed result)⟩

/-- Claim C5 counterexample: ingesting a payload whose first bucket uses the
declared group `a` and whose second bucket references the unknown group `b`
throws, and afterwards exactly one of the payload's two markers remains
registered — neither all nor none, so ingestion is not atomic for bad
per-marker entries. -/
theorem instantiateMarkers_not_atomic :
    (exMap5.instantiateMarkers exGetKey exIsDismissed exPayload).2 = true
    ∧ (exMap5.instantiateMarkers exGetKey exIsDismissed exPayload).1.members.length = 1
    ∧ exMap5.members.length = 0
    ∧ payloadSize exPayload = 2
    ∧ ¬((exMap5.instantiateMarkers exGetKey exIsDismissed exPayload).1.members.length
          = exMap5.members.length
        ∨ (exMap5.instantiateMarkers exGetKey exIsDismissed exPayload).1.members.length
          = exMap5.members.length + payloadSize exPayload) := by
  simp [exMap5, exGroup, exGetKey, exIsDismissed, exInst1, exInst2, exPayload,
    DataMap.instantiateMarkers, DataMap.processEntries, DataMap.registerTypes,
    DataMap.registerLayer, DataMap.addMarker, DataMap.translatePoint, DataMap.init,
    lookupGroup, groupNameOf, splitSpaces, splitSpacesAux, markerStableKey,
    DataMap.shouldAutoOpen, payloadSize]

/-- Claim C5 (amended): when the fetch collaborator reports a failure, or the
response carries an error flag, the error callback is invoked and no marker
is registered; but a payload entry referencing an unknown group (with at
least one placement) aborts ingestion by throwing at that entry, leaving the
markers of every preceding entry of the same payload registered, and the
success callback is not invoked. -/
theorem streamMarkersIn_error_handling (m : DataMap)
    (getKey : String → Inst → String) (isDismissed : String → Inst → Bool)
    (data good more : List (String × List Inst)) (badType : String)
    (badInst : Inst) (badRest : List Inst)
    (hgood : ∀ kv ∈ good, (lookupGroup m.groups (groupNameOf kv.1)).isSome = true)
    (hbad : lookupGroup m.groups (groupNameOf badType) = none) :
    ((m.streamMarkersIn getKey isDismissed FetchResult.failure).map = m
      ∧ (m.streamMarkersIn getKey isDismissed FetchResult.failure).errorCbInvoked = true
      ∧ (m.streamMarkersIn getKey isDismissed FetchResult.failure).successCbInvoked = false)
    ∧ ((m.streamMarkersIn getKey isDismissed (FetchResult.response true data)).map = m
      ∧ (m.streamMarkersIn getKey isDismissed
          (FetchResult.response true data)).errorCbInvoked = true)
    ∧ ((m.streamMarkersIn getKey isDismissed
          (FetchResult.response false (good ++ (badType, badInst :: badRest) :: more))).threw
        = true
      ∧ (m.streamMarkersIn getKey isDismissed
          (FetchResult.response false (good ++ (badType, badInst :: badRest) :: more))).map.members
        = (DataMap.processEntries getKey isDismissed
            (m.registerTypes (good ++ (badType, badInst :: badRest) :: more)) good).1.members
      ∧ (m.streamMarkersIn getKey isDismissed
          (FetchResult.response false
            (good ++ (badType, badInst :: badRest) :: more))).successCbInvoked = false) := by
  refine ⟨⟨rfl, rfl, rfl⟩, ⟨rfl, rfl⟩, ?_⟩
  have hm1 : (m.registerTypes (good ++ (badType, badInst :: badRest) :: more)).groups
      = m.groups :=
    (registerTypes_configEq m (good ++ (badType, badInst :: badRest) :: more)).2.2.2.1
  have hgood1 : ∀ kv ∈ good,
      (lookupGroup (m.registerTypes (good ++ (badType, badInst :: badRest) :: more)).groups
        (groupNameOf kv.1)).isSome = true := by
    rw [hm1]; exact hgood
  obtain ⟨happ, hfst⟩ := processEntries_append getKey isDismissed good
    ((badType, badInst :: badRest) :: more)
    (m.registerTypes (good ++ (badType, badInst :: badRest) :: more)) hgood1
  have hgroups2 : (DataMap.processEntries getKey isDismissed
      (m.registerTypes (good ++ (badType, badInst :: badRest) :: more)) good).1.groups
      = m.groups := by
    rw [(processEntries_configEq getKey isDismissed good
      (m.registerTypes (good ++ (badType, badInst :: badRest) :: more))).2.2.2.1, hm1]
  have hbad2 : lookupGroup
      (DataMap.processEntries getKey isDismissed
        (m.registerTypes (good ++ (badType, badInst :: badRest) :: more)) good).1.groups
      (groupNameOf badType) = none := by
    rw [hgroups2]; exact hbad
  have hres : DataMap.processEntries getKey isDismissed
      (m.registerTypes (good ++ (badType, badInst :: badRest) :: more))
      (good ++ (badType, badInst :: badRest) :: more)
      = ((DataMap.processEntries getKey isDismissed
          (m.registerTypes (good ++ (badType, badInst :: badRest) :: more)) good).1, true) := by
    rw [happ]
    simp only [DataMap.processEntries, hbad2]
  unfold DataMap.streamMarkersIn DataMap.instantiateMarkers
  dsimp only
  rw [hres]
  exact ⟨rfl, rfl, rfl⟩

/-- Witness for claim C5 (amended): the hypotheses and the thrown-abort
conclusion on the concrete map and the payload of
`instantiateMarkers_not_atomic`. -/
theorem streamMarkersIn_error_handling_witness :
    (∀ kv ∈ [(("a" : String), [exInst1])],
      (lookupGroup exMap5.groups (groupNameOf kv.1)).isSome = true)
    ∧ lookupGroup exMap5.groups (groupNameOf "b") = none
    ∧ (exMap5.streamMarkersIn exGetKey exIsDismissed
        (FetchResult.response false
          ([("a", [exInst1])] ++ ("b", exInst2 :: []) :: []))).threw = true :=
  ⟨by decide, by decide,
   (streamMarkersIn_error_handling exMap5 exGetKey exIsDismissed [] [("a", [exInst1])] []
      "b" exInst2 [] (by decide) (by decide)).2.2.1⟩

end DataMaps
